import Mathlib

/-!
Verification of the upload–clone–synthesize–stream pipeline of
`app/main.py` (voicecloner proxy backend).

The embedding below translates the source file shallowly:

* The local filesystem is an association list `path ↦ byte size`
  (only sizes matter to the program's control flow).
* `tempfile.NamedTemporaryFile` is the external OS temp-naming facility;
  it is modelled by a per-process counter producing a fresh unique token
  per allocation (uniqueness is the only property the code relies on).
* The ElevenLabs SDK calls and disk-write faults are external
  collaborators; their outcomes are inputs to the model (`World`).
* `raise`/`except` is modelled with explicit outcome values; notably the
  endpoint's first `except Exception` clause also catches the
  `HTTPException(400, ...)` raised inside its own `try` block, exactly as
  Python's exception hierarchy dictates (fastapi's `HTTPException`
  subclasses `Exception`, and `str(e)` is `"<status>: <detail>"`).
* FastAPI rejects a request missing the required `X-API-KEY` header with
  a 422 validation error before the endpoint body runs; the 422 body is a
  structured validation message, modelled here with `detail := none`.
-/

namespace VoiceProxy

/-! ### Filesystem model -/

/-- Association-list filesystem: maps a path to the file's byte size. -/
def fsLookup (fs : List (String × Nat)) (p : String) : Option Nat :=
  match fs with
  | [] => none
  | e :: rest => if e.1 = p then some e.2 else fsLookup rest p

/-- Delete every entry stored under path `p`. -/
def fsErase (fs : List (String × Nat)) (p : String) : List (String × Nat) :=
  match fs with
  | [] => []
  | e :: rest => if e.1 = p then fsErase rest p else e :: fsErase rest p

/-- Create or overwrite the file at `p` with size `n`. -/
def fsSet (fs : List (String × Nat)) (p : String) (n : Nat) : List (String × Nat) :=
  (p, n) :: fsErase fs p

/-- `os.path.exists`. -/
def pathExists (fs : List (String × Nat)) (p : String) : Bool :=
  (fsLookup fs p).isSome

/-- `os.path.getsize` on a file known to exist (0 as junk value otherwise). -/
def getsize (fs : List (String × Nat)) (p : String) : Nat :=
  (fsLookup fs p).getD 0

/-! ### Path helpers (`os.path`) -/

/-- `os.path.basename` on the character list: everything after the last slash. -/
def basenameData (l : List Char) : List Char :=
  (l.reverse.takeWhile (fun c => c != '/')).reverse

/-- `os.path.basename`. -/
def basename (p : String) : String := String.mk (basenameData p.data)

/-- Helper for `os.path.splitext`: given the reversed basename, return the
extension (in order, with its dot), or `[]` when there is none.  A dot in
the leading all-dot run of the basename does not start an extension. -/
def extOfRev (r : List Char) : List Char :=
  match r.drop ((r.takeWhile (fun c => c != '.')).length) with
  | [] => []
  | _ :: tail =>
    if tail.all (fun c => c == '.') then []
    else '.' :: (r.takeWhile (fun c => c != '.')).reverse

/-- The extension component of `os.path.splitext`. -/
def splitExtExt (fn : String) : String :=
  String.mk (extOfRev (basenameData fn.data).reverse)

/-- `os.path.splitext(upload.filename)[1] or ".wav"` (line 41 of main.py). -/
def suffixFor (fn : String) : String :=
  if splitExtExt fn = "" then ".wav" else splitExtExt fn

/-! ### Temp-file naming facility -/

/-- Modelled external facility: the unique random part of a
`tempfile.NamedTemporaryFile` name.  The model draws tokens from a
per-process counter; distinct draws give distinct tokens, which is the
uniqueness guarantee the OS facility provides. -/
def tmpToken (n : Nat) : String := String.mk (List.replicate (n + 1) 'u')

/-- Full temp path produced for allocation number `n`. -/
def tmpPath (pfx sfx : String) (n : Nat) : String :=
  "/tmp/" ++ pfx ++ tmpToken n ++ sfx

/-! ### Outcomes, exceptions, responses -/

/-- Result of a call that either returns or raises (message text kept). -/
inductive Outcome (α : Type) where
  | ok (a : α)
  | fail (msg : String)
deriving DecidableEq, Repr

/-- The two exception shapes the endpoint's first `try` block can see. -/
inductive Exc where
  | httpExc (status : Nat) (detail : String)
  | runtimeExc (msg : String)
deriving DecidableEq, Repr

/-- Python `str(e)`: fastapi `HTTPException.__str__` is
`"<status_code>: <detail>"`; other exceptions render their message. -/
def excText : Exc → String
  | .httpExc s d => toString s ++ ": " ++ d
  | .runtimeExc m => m

/-- The observable parts of the HTTP response. -/
structure Response where
  status : Nat
  detail : Option String
  mediaType : Option String
  contentDisposition : Option String
  bodyFile : Option String
deriving DecidableEq, Repr

/-- A `raise HTTPException(status, detail)` reaching the framework. -/
def errorResponse (s : Nat) (d : String) : Response :=
  { status := s
    detail := some d
    mediaType := none
    contentDisposition := none
    bodyFile := none }

/-! ### Process state, configuration, request, external world -/

/-- Per-process mutable state plus per-request bookkeeping:
which files this request created, removed immediately, scheduled for
background deletion, and which clone names it sent to the provider. -/
structure St where
  fs : List (String × Nat)
  nextTmp : Nat
  created : List String
  removed : List String
  scheduled : List String
  cloneCalls : List String
deriving DecidableEq, Repr

/-- Configuration captured at process startup (module top level). -/
structure Config where
  elevenlabs_api_key : String
  backend_access_key : String
deriving DecidableEq, Repr

/-- One incoming request.  `x_api_key = none` models a request without the
`X-API-KEY` header; `ref_chunks` are the byte counts returned by the
successive `upload.file.read(1024 * 1024)` calls. -/
structure Request where
  x_api_key : Option String
  ref_filename : String
  ref_chunks : List Nat
  text : String
deriving DecidableEq, Repr

/-- External nondeterminism for one request: which disk write (if any)
raises while saving the upload, whether allocating the output temp file
raises, and the outcomes of the two provider calls.  A successful
synthesis call yields the sizes of its byte chunks. -/
structure World where
  saveFailAt : Option Nat
  outAllocFail : Bool
  cloneOutcome : Outcome String
  synthOutcome : Outcome (List Nat)
deriving DecidableEq, Repr

/-! ### Environment and startup (lines 22–34 of main.py) -/

/-- `os.getenv`. -/
def getenv (env : List (String × String)) (name : String) : Option String :=
  match env with
  | [] => none
  | e :: rest => if e.1 = name then some e.2 else getenv rest name

/-- Module-level startup: reads the two credentials once, failing the
process if either is absent. -/
def startupConfig (env : List (String × String)) : Outcome Config :=
  match getenv env "ELEVENLABS_API_KEY" with
  | none => .fail "ELEVENLABS_API_KEY is not set in the environment"
  | some k =>
    match getenv env "BACKEND_ACCESS_KEY" with
    | none => .fail "BACKEND_ACCESS_KEY is not set in the environment"
    | some b => .ok { elevenlabs_api_key := k, backend_access_key := b }

/-- Model of Python `int(str)` restricted to the decimal digit strings
this program meets: `none` models the `ValueError` raise. -/
def parseNat? (s : String) : Option Nat :=
  if s.data ≠ [] ∧ s.data.all Char.isDigit then
    some (s.data.foldl (fun n c => n * 10 + (c.toNat - '0'.toNat)) 0)
  else none

/-- `int(os.getenv("MAX_REF_BYTES", 10 * 1024 * 1024))` (line 127),
evaluated inside the endpoint body, i.e. on every request.  `none` means
`int()` raised on an unparsable value. -/
def maxRefBytesOf (env : List (String × String)) : Option Nat :=
  match getenv env "MAX_REF_BYTES" with
  | none => some (10 * 1024 * 1024)
  | some s => parseNat? s

/-! ### Temp-file store operations -/

/-- `tempfile.NamedTemporaryFile(delete=False, suffix=sfx, prefix=pfx)`:
allocate a fresh uniquely named empty file and record its creation. -/
def namedTempFile (pfx sfx : String) (st : St) : String × St :=
  let path := tmpPath pfx sfx st.nextTmp
  (path,
   { st with
       fs := fsSet st.fs path 0
       nextTmp := st.nextTmp + 1
       created := st.created ++ [path] })

/-- The chunked copy loop of `_save_upload_tempfile` (lines 44–49):
reads chunks until an empty read, writing each; the `i`-th write raises
when the world says so.  Returns the write outcome and the bytes written. -/
def writeLoop (w : World) : List Nat → Nat → Nat → Outcome Unit × Nat
  | [], _, acc => (.ok (), acc)
  | c :: cs, i, acc =>
    if c = 0 then (.ok (), acc)
    else if w.saveFailAt = some i then (.fail "No space left on device", acc)
    else writeLoop w cs (i + 1) (acc + c)

/-- `_save_upload_tempfile` (lines 39–52): allocate the reference temp
file, stream the upload into it; on a write fault the partially written
file stays on disk (`delete=False`) and the exception propagates. -/
def _save_upload_tempfile (w : World) (req : Request) (st : St) :
    Outcome String × St :=
  let sfx := suffixFor req.ref_filename
  let ts := namedTempFile "ref_" sfx st
  let path := ts.1
  let st1 := ts.2
  match writeLoop w req.ref_chunks 0 0 with
  | (.ok _, total) => (.ok path, { st1 with fs := fsSet st1.fs path total })
  | (.fail m, written) => (.fail m, { st1 with fs := fsSet st1.fs path written })

/-- `_remove_file` (lines 55–60): best-effort delete, never raises. -/
def _remove_file (p : Option String) (st : St) : St :=
  match p with
  | none => st
  | some path =>
    if pathExists st.fs path then
      { st with fs := fsErase st.fs path, removed := st.removed ++ [path] }
    else st

/-! ### Provider wrappers -/

/-- `create_voice_from_reference` (lines 63–72): read the reference file
fully, send it to the provider's clone-creation call tagged with
`clone_name`; the provider's outcome (voice id or error text) comes from
the world.  The clone name sent is recorded. -/
def create_voice_from_reference (w : World) (clone_name ref_path : String)
    (st : St) : Outcome String × St :=
  match fsLookup st.fs ref_path with
  | none => (.fail "No such file or directory", st)
  | some _ => (w.cloneOutcome, { st with cloneCalls := st.cloneCalls ++ [clone_name] })

/-- The guard on line 93: `not os.path.exists(out_path) or
os.path.getsize(out_path) < 100`. -/
def outputTooSmall (fs : List (String × Nat)) (p : String) : Prop :=
  fsLookup fs p = none ∨ getsize fs p < 100

instance (fs : List (String × Nat)) (p : String) : Decidable (outputTooSmall fs p) := by
  unfold outputTooSmall; infer_instance

/-- `synthesize_text_to_file` (lines 75–95): open the output file for
writing (truncating it), write every non-empty chunk in order, then check
the result is plausibly sized; raise `RuntimeError` otherwise.  A
provider failure during iteration leaves the truncated file behind. -/
def synthesize_text_to_file (w : World) (voice_id text out_path : String)
    (st : St) : Outcome Unit × St :=
  match w.synthOutcome with
  | .fail m => (.fail m, { st with fs := fsSet st.fs out_path 0 })
  | .ok chunks =>
    let total := (chunks.filter (fun c => c != 0)).sum
    let fs1 := fsSet st.fs out_path total
    if outputTooSmall fs1 out_path then
      (.fail "Synthesized file is empty or too small", { st with fs := fs1 })
    else (.ok (), { st with fs := fs1 })

/-! ### The endpoint (lines 105–163) -/

/-- The endpoint's first `try` block (lines 130–138): save the upload and
enforce the size ceiling.  The raised `HTTPException(400, "Reference file
too large")` is an exception value here because the enclosing
`except Exception` clause (line 137) catches it as well. -/
def saveAndCheck (w : World) (req : Request) (maxRef : Nat) (st : St) :
    Sum Exc String × St :=
  match _save_upload_tempfile w req st with
  | (.fail m, st1) => (.inl (.runtimeExc m), st1)
  | (.ok path, st1) =>
    if getsize st1.fs path > maxRef then
      (.inl (.httpExc 400 "Reference file too large"), _remove_file (some path) st1)
    else (.inr path, st1)

/-- The endpoint's second `try` block (lines 149–163): clone, synthesize,
stream; any exception becomes `500 TTS error: <str(e)>`. -/
def cloneAndSynthesize (w : World) (ref_path out_path text : String) (st : St) :
    Response × St :=
  let clone_name := "ref_clone_" ++ basename ref_path
  match create_voice_from_reference w clone_name ref_path st with
  | (.fail m, st1) => (errorResponse 500 ("TTS error: " ++ m), st1)
  | (.ok voice_id, st1) =>
    match synthesize_text_to_file w voice_id text out_path st1 with
    | (.fail m, st2) => (errorResponse 500 ("TTS error: " ++ m), st2)
    | (.ok _, st2) =>
      ({ status := 200
         detail := none
         mediaType := some "audio/mpeg"
         contentDisposition := some "attachment; filename=\"tts.mp3\""
         bodyFile := some out_path }, st2)

/-- `synthesize_endpoint` body (lines 105–163), entered with the header
value `key`: inline authorization, per-request ceiling read, save block
(whose exceptions — including its own 400 — become
`500 Failed to save reference: <str(e)>`), output temp allocation (an
allocation fault propagates unhandled, i.e. a plain 500 with no cleanup
scheduled), cleanup scheduling for both files, then clone/synthesize. -/
def synthesize_endpoint (cfg : Config) (env : List (String × String))
    (w : World) (req : Request) (key : String) (st : St) : Response × St :=
  if key ≠ cfg.backend_access_key then (errorResponse 401 "Unauthorized", st)
  else
    match maxRefBytesOf env with
    | none => (errorResponse 500 "Internal Server Error", st)
    | some maxRef =>
      match saveAndCheck w req maxRef st with
      | (.inl e, st1) =>
        (errorResponse 500 ("Failed to save reference: " ++ excText e), st1)
      | (.inr ref_path, st1) =>
        if w.outAllocFail then (errorResponse 500 "Internal Server Error", st1)
        else
          let ts := namedTempFile "out_" ".mp3" st1
          let out_path := ts.1
          let st2 := ts.2
          let st3 := { st2 with scheduled := st2.scheduled ++ [ref_path, out_path] }
          cloneAndSynthesize w ref_path out_path req.text st3

/-- A request hitting `POST /synthesize`: FastAPI's parameter validation
rejects a request missing the required `X-API-KEY` header with a 422
validation response before the endpoint body runs. -/
def handleRequest (cfg : Config) (env : List (String × String)) (w : World)
    (req : Request) (st : St) : Response × St :=
  match req.x_api_key with
  | none =>
    ({ status := 422
       detail := none
       mediaType := none
       contentDisposition := none
       bodyFile := none }, st)
  | some key => synthesize_endpoint cfg env w req key st

/-- The clone name generated on line 152 for the reference file allocated
at counter value `st.nextTmp`. -/
def cloneNameFor (req : Request) (st : St) : String :=
  "ref_clone_" ++ basename (tmpPath "ref_" (suffixFor req.ref_filename) st.nextTmp)

/-- The request reaches the clone stage: correct key, no write fault while
saving, parseable ceiling not exceeded, output allocation succeeds. -/
structure ReachesClone (cfg : Config) (env : List (String × String))
    (w : World) (req : Request) : Prop where
  auth : req.x_api_key = some cfg.backend_access_key
  savefine : w.saveFailAt = none
  allocfine : w.outAllocFail = false
  ceiling : ∃ M, maxRefBytesOf env = some M ∧ (writeLoop w req.ref_chunks 0 0).2 ≤ M

/-! ### Basic lemmas about the filesystem model -/

theorem fsLookup_fsErase_self (fs : List (String × Nat)) (p : String) :
    fsLookup (fsErase fs p) p = none := by
  induction fs with
  | nil => rfl
  | cons e rest ih =>
    by_cases h : e.1 = p
    · simpa [fsErase, h] using ih
    · simpa [fsErase, fsLookup, h] using ih

theorem fsLookup_fsErase_ne (fs : List (String × Nat)) (p q : String)
    (h : q ≠ p) : fsLookup (fsErase fs p) q = fsLookup fs q := by
  have hpq : ¬ p = q := fun hh => h hh.symm
  induction fs with
  | nil => rfl
  | cons e rest ih =>
    by_cases he : e.1 = p
    · simp [fsErase, fsLookup, he, hpq, ih]
    · by_cases hq : e.1 = q
      · simp [fsErase, fsLookup, he, hq, h]
      · simp [fsErase, fsLookup, he, hq, ih]

theorem fsLookup_fsSet_self (fs : List (String × Nat)) (p : String) (n : Nat) :
    fsLookup (fsSet fs p n) p = some n := by
  simp [fsSet, fsLookup]

theorem fsLookup_fsSet_ne (fs : List (String × Nat)) (p : String) (n : Nat)
    (q : String) (h : q ≠ p) :
    fsLookup (fsSet fs p n) q = fsLookup fs q := by
  have : ¬ p = q := fun hh => h hh.symm
  simp [fsSet, fsLookup, this, fsLookup_fsErase_ne fs p q h]

theorem getsize_fsSet_self (fs : List (String × Nat)) (p : String) (n : Nat) :
    getsize (fsSet fs p n) p = n := by
  simp [getsize, fsLookup_fsSet_self]

/-! ### Lemmas about the write loop -/

theorem writeLoop_eq_ok (w : World) (h : w.saveFailAt = none) :
    ∀ (cs : List Nat) (i acc : Nat),
      writeLoop w cs i acc = (.ok (), (writeLoop w cs i acc).2) := by
  intro cs
  induction cs with
  | nil => intro i acc; rfl
  | cons c rest ih =>
    intro i acc
    by_cases hc : c = 0
    · simp [writeLoop, hc]
    · have hf : ¬ (w.saveFailAt = some i) := by rw [h]; simp
      simp only [writeLoop, if_neg hc, if_neg hf]
      exact ih (i + 1) (acc + c)

/-! ### Character-list lemmas for path and name reasoning -/

theorem pred_of_mem_takeWhile {α : Type} (p : α → Bool) :
    ∀ (l : List α) (a : α), a ∈ l.takeWhile p → p a = true := by
  intro l
  induction l with
  | nil => intro a ha; simp [List.takeWhile] at ha
  | cons x xs ih =>
    intro a ha
    by_cases hx : p x = true
    · rw [List.takeWhile_cons_of_pos hx] at ha
      rcases List.mem_cons.mp ha with h1 | h2
      · rwa [h1]
      · exact ih a h2
    · rw [List.takeWhile_cons_of_neg (by simpa using hx)] at ha
      cases ha

theorem takeWhile_append_all {α : Type} (p : α → Bool) :
    ∀ (l₁ l₂ : List α), (∀ a ∈ l₁, p a = true) →
      (l₁ ++ l₂).takeWhile p = l₁ ++ l₂.takeWhile p := by
  intro l₁
  induction l₁ with
  | nil => intro l₂ _; simp
  | cons x xs ih =>
    intro l₂ h
    have hx : p x = true := h x (by simp)
    simp only [List.cons_append, List.takeWhile_cons_of_pos hx]
    rw [ih l₂ (fun a ha => h a (by simp [ha]))]

theorem tmpToken_all_u (n : Nat) : ∀ c ∈ (tmpToken n).data, c = 'u' := by
  intro c hc
  simp only [tmpToken] at hc
  exact List.eq_of_mem_replicate hc

theorem uRun_append_cancel :
    ∀ (a b s t : List Char),
      (∀ c ∈ a, c = 'u') → (∀ c ∈ b, c = 'u') →
      s.head? = some '.' → t.head? = some '.' →
      a ++ s = b ++ t → a = b := by
  intro a
  induction a with
  | nil =>
    intro b s t _ hb hs ht h
    cases b with
    | nil => rfl
    | cons y ys =>
      exfalso
      simp only [List.nil_append, List.cons_append] at h
      rw [h] at hs
      simp only [List.head?_cons, Option.some.injEq] at hs
      have hy : y = 'u' := hb y (by simp)
      rw [hy] at hs
      exact absurd hs (by decide)
  | cons x xs ih =>
    intro b s t ha hb hs ht h
    cases b with
    | nil =>
      exfalso
      simp only [List.cons_append, List.nil_append] at h
      rw [← h] at ht
      simp only [List.head?_cons, Option.some.injEq] at ht
      have hx : x = 'u' := ha x (by simp)
      rw [hx] at ht
      exact absurd ht (by decide)
    | cons y ys =>
      simp only [List.cons_append, List.cons.injEq] at h
      obtain ⟨h1, h2⟩ := h
      have := ih ys s t (fun c hc => ha c (by simp [hc]))
        (fun c hc => hb c (by simp [hc])) hs ht h2
      rw [h1, this]

theorem tmpToken_inj {n m : Nat} {s t : List Char}
    (hs : s.head? = some '.') (ht : t.head? = some '.')
    (h : (tmpToken n).data ++ s = (tmpToken m).data ++ t) : n = m := by
  have heq := uRun_append_cancel _ _ s t (tmpToken_all_u n) (tmpToken_all_u m) hs ht h
  have hlen := congrArg List.length heq
  simp only [tmpToken, List.length_replicate] at hlen
  omega

/-! ### Lemmas about suffixes, basenames and generated names -/

theorem extOfRev_shape (r : List Char) :
    extOfRev r = [] ∨
      extOfRev r = '.' :: (r.takeWhile (fun c => c != '.')).reverse := by
  unfold extOfRev
  cases hd : r.drop ((r.takeWhile (fun c => c != '.')).length) with
  | nil => left; rfl
  | cons x tail =>
    by_cases hall : tail.all (fun c => c == '.')
    · left; simp [hall]
    · right; simp [hall]

theorem basenameData_no_slash (l : List Char) :
    ∀ c ∈ basenameData l, c ≠ '/' := by
  intro c hc
  unfold basenameData at hc
  rw [List.mem_reverse] at hc
  have := pred_of_mem_takeWhile _ _ _ hc
  simpa using this

theorem suffixFor_head (fn : String) : (suffixFor fn).data.head? = some '.' := by
  unfold suffixFor
  by_cases h : splitExtExt fn = ""
  · rw [if_pos h]; rfl
  · rw [if_neg h]
    rcases extOfRev_shape ((basenameData fn.data).reverse) with h0 | h1
    · exact absurd (show splitExtExt fn = "" by unfold splitExtExt; rw [h0]) h
    · unfold splitExtExt; rw [h1]; rfl

theorem suffixFor_no_slash (fn : String) : ∀ c ∈ (suffixFor fn).data, c ≠ '/' := by
  intro c hc
  unfold suffixFor at hc
  by_cases h : splitExtExt fn = ""
  · rw [if_pos h] at hc
    have hm : c = '.' ∨ c = 'w' ∨ c = 'a' ∨ c = 'v' := by
      simpa using hc
    rcases hm with rfl | rfl | rfl | rfl <;> decide
  · rw [if_neg h] at hc
    rcases extOfRev_shape ((basenameData fn.data).reverse) with h0 | h1
    · exact absurd (show splitExtExt fn = "" by unfold splitExtExt; rw [h0]) h
    · unfold splitExtExt at hc
      rw [h1] at hc
      rcases List.mem_cons.mp hc with hdot | hpre
      · rw [hdot]; decide
      · rw [List.mem_reverse] at hpre
        have hr : c ∈ (basenameData fn.data).reverse :=
          List.takeWhile_subset _ hpre
        rw [List.mem_reverse] at hr
        exact basenameData_no_slash _ c hr

theorem basenameData_tmp (rest : List Char) (h : ∀ c ∈ rest, c ≠ '/') :
    basenameData ("/tmp/".data ++ rest) = rest := by
  unfold basenameData
  rw [List.reverse_append]
  rw [takeWhile_append_all _ rest.reverse _
    (by intro c hc; rw [List.mem_reverse] at hc; simpa using h c hc)]
  have h0 : ("/tmp/".data.reverse.takeWhile (fun c => c != '/')) = [] := by decide
  rw [h0, List.append_nil, List.reverse_reverse]

theorem basename_tmpPath (pfx sfx : String) (n : Nat)
    (hp : ∀ c ∈ pfx.data, c ≠ '/') (hs : ∀ c ∈ sfx.data, c ≠ '/') :
    basename (tmpPath pfx sfx n) = pfx ++ tmpToken n ++ sfx := by
  unfold basename tmpPath
  apply String.ext
  simp only [String.data_append, List.append_assoc]
  rw [basenameData_tmp (pfx.data ++ ((tmpToken n).data ++ sfx.data))]
  intro c hc
  rcases List.mem_append.mp hc with h1 | h2
  · exact hp c h1
  · rcases List.mem_append.mp h2 with h3 | h4
    · rw [tmpToken_all_u n c h3]; decide
    · exact hs c h4

theorem tmpPath_ref_ne_out (s₁ s₂ : String) (n m : Nat) :
    tmpPath "ref_" s₁ n ≠ tmpPath "out_" s₂ m := by
  unfold tmpPath
  intro h
  have hd := congrArg String.data h
  simp only [String.data_append, List.append_assoc] at hd
  have h1 := List.append_cancel_left hd
  have h2 := (List.append_inj h1 (by decide)).1
  exact absurd h2 (by decide)

theorem cloneNameFor_ne (req₁ req₂ : Request) (st₁ st₂ : St)
    (h : st₁.nextTmp ≠ st₂.nextTmp) :
    cloneNameFor req₁ st₁ ≠ cloneNameFor req₂ st₂ := by
  unfold cloneNameFor
  intro heq
  rw [basename_tmpPath _ _ _ (by decide) (suffixFor_no_slash _),
      basename_tmpPath _ _ _ (by decide) (suffixFor_no_slash _)] at heq
  apply h
  have hd := congrArg String.data heq
  simp only [String.data_append, List.append_assoc] at hd
  have h1 := List.append_cancel_left hd
  have h2 := List.append_cancel_left h1
  exact tmpToken_inj (suffixFor_head _) (suffixFor_head _) h2

/-! ### Run-characterization lemmas -/

/-- The final try block touches only `fs` and `cloneCalls`; it records the
clone name exactly when the reference file exists. -/
theorem cloneAndSynthesize_ghost (w : World) (rp op t : String) (st : St) :
    (cloneAndSynthesize w rp op t st).2.created = st.created ∧
    (cloneAndSynthesize w rp op t st).2.removed = st.removed ∧
    (cloneAndSynthesize w rp op t st).2.scheduled = st.scheduled ∧
    (cloneAndSynthesize w rp op t st).2.nextTmp = st.nextTmp ∧
    (cloneAndSynthesize w rp op t st).2.cloneCalls =
      (if (fsLookup st.fs rp).isSome
       then st.cloneCalls ++ ["ref_clone_" ++ basename rp]
       else st.cloneCalls) := by
  unfold cloneAndSynthesize create_voice_from_reference synthesize_text_to_file
  cases hfl : fsLookup st.fs rp with
  | none => simp
  | some sz =>
    cases w.cloneOutcome with
    | fail m => simp
    | ok v =>
      cases w.synthOutcome with
      | fail m => simp
      | ok cs =>
        by_cases hsm : outputTooSmall
            (fsSet st.fs op ((cs.filter (fun c => c != 0)).sum)) op <;>
          simp [hsm]

/-- Under `ReachesClone`, the run is the final try block applied to the
two freshly allocated paths and the post-scheduling state. -/
theorem handleRequest_reaches (cfg : Config) (env : List (String × String))
    (w : World) (req : Request) (st : St) (h : ReachesClone cfg env w req) :
    handleRequest cfg env w req st =
      cloneAndSynthesize w
        (tmpPath "ref_" (suffixFor req.ref_filename) st.nextTmp)
        (tmpPath "out_" ".mp3" (st.nextTmp + 1))
        req.text
        { fs := fsSet (fsSet
              (fsSet st.fs (tmpPath "ref_" (suffixFor req.ref_filename) st.nextTmp) 0)
              (tmpPath "ref_" (suffixFor req.ref_filename) st.nextTmp)
              ((writeLoop w req.ref_chunks 0 0).2))
            (tmpPath "out_" ".mp3" (st.nextTmp + 1)) 0
          nextTmp := st.nextTmp + 1 + 1
          created := st.created ++ [tmpPath "ref_" (suffixFor req.ref_filename) st.nextTmp]
            ++ [tmpPath "out_" ".mp3" (st.nextTmp + 1)]
          removed := st.removed
          scheduled := st.scheduled ++
            [tmpPath "ref_" (suffixFor req.ref_filename) st.nextTmp,
             tmpPath "out_" ".mp3" (st.nextTmp + 1)]
          cloneCalls := st.cloneCalls } := by
  obtain ⟨hauth, hsave, halloc, hceil⟩ := h
  obtain ⟨M, hmax, hle⟩ := hceil
  have hw := writeLoop_eq_ok w hsave req.ref_chunks 0 0
  unfold handleRequest synthesize_endpoint
  rw [hauth]
  dsimp only
  rw [if_neg (by simp)]
  rw [hmax]
  dsimp only
  unfold saveAndCheck _save_upload_tempfile namedTempFile
  rw [hw]
  dsimp only
  simp only [getsize_fsSet_self]
  rw [if_neg (by omega)]
  dsimp only
  rw [if_neg (by simp [halloc])]

/-- Under `ReachesClone`, exactly one clone name is recorded — generated
from the reference temp file allocated at counter `st.nextTmp` — and the
counter advances by two. -/
theorem cloneCalls_of_reaches (cfg : Config) (env : List (String × String))
    (w : World) (req : Request) (st : St) (h : ReachesClone cfg env w req) :
    (handleRequest cfg env w req st).2.cloneCalls
      = st.cloneCalls ++ [cloneNameFor req st] ∧
    (handleRequest cfg env w req st).2.nextTmp = st.nextTmp + 2 := by
  rw [handleRequest_reaches cfg env w req st h]
  obtain ⟨-, -, -, hnext, hcalls⟩ := cloneAndSynthesize_ghost w
    (tmpPath "ref_" (suffixFor req.ref_filename) st.nextTmp)
    (tmpPath "out_" ".mp3" (st.nextTmp + 1)) req.text _
  refine ⟨?_, ?_⟩
  · rw [hcalls]
    have hne : tmpPath "ref_" (suffixFor req.ref_filename) st.nextTmp
        ≠ tmpPath "out_" ".mp3" (st.nextTmp + 1) := tmpPath_ref_ne_out _ _ _ _
    dsimp only
    rw [fsLookup_fsSet_ne _ _ _ _ hne, fsLookup_fsSet_self]
    rfl
  · rw [hnext]

/-- The oversized-reference run: the 400 raised inside the first try block
is caught by its own `except` clause and re-raised as a 500; the reference
temp file is removed immediately. -/
theorem handleRequest_oversized (cfg : Config) (env : List (String × String))
    (w : World) (req : Request) (st : St) (M : Nat)
    (hauth : req.x_api_key = some cfg.backend_access_key)
    (hsave : w.saveFailAt = none)
    (hmax : maxRefBytesOf env = some M)
    (hgt : M < (writeLoop w req.ref_chunks 0 0).2) :
    handleRequest cfg env w req st =
      (errorResponse 500 ("Failed to save reference: " ++
         excText (.httpExc 400 "Reference file too large")),
       { fs := fsErase (fsSet
             (fsSet st.fs (tmpPath "ref_" (suffixFor req.ref_filename) st.nextTmp) 0)
             (tmpPath "ref_" (suffixFor req.ref_filename) st.nextTmp)
             ((writeLoop w req.ref_chunks 0 0).2))
           (tmpPath "ref_" (suffixFor req.ref_filename) st.nextTmp)
         nextTmp := st.nextTmp + 1
         created := st.created ++ [tmpPath "ref_" (suffixFor req.ref_filename) st.nextTmp]
         removed := st.removed ++ [tmpPath "ref_" (suffixFor req.ref_filename) st.nextTmp]
         scheduled := st.scheduled
         cloneCalls := st.cloneCalls }) := by
  have hw := writeLoop_eq_ok w hsave req.ref_chunks 0 0
  unfold handleRequest synthesize_endpoint
  rw [hauth]
  dsimp only
  rw [if_neg (by simp)]
  rw [hmax]
  dsimp only
  unfold saveAndCheck _save_upload_tempfile namedTempFile
  rw [hw]
  dsimp only
  simp only [getsize_fsSet_self]
  rw [if_pos (by omega)]
  unfold _remove_file
  dsimp only
  rw [if_pos (by simp [pathExists, fsLookup_fsSet_self])]

/-! ### Concrete fixtures for witnesses and counterexamples -/

def cfg1 : Config := ⟨"el-key", "secret"⟩

def env1 : List (String × String) :=
  [("ELEVENLABS_API_KEY", "el-key"), ("BACKEND_ACCESS_KEY", "secret")]

/-- Same credentials, but with the ceiling overridden to 20 MB. -/
def env2 : List (String × String) :=
  [("ELEVENLABS_API_KEY", "el-key"), ("BACKEND_ACCESS_KEY", "secret"),
   ("MAX_REF_BYTES", "20000000")]

/-- Same bindings as `env1` in a different order plus an unrelated var. -/
def envPerm : List (String × String) :=
  [("BACKEND_ACCESS_KEY", "secret"), ("OTHER_VAR", "x"),
   ("ELEVENLABS_API_KEY", "el-key")]

/-- Same credentials, ceiling overridden to exactly 500000 bytes. -/
def envM : List (String × String) :=
  [("ELEVENLABS_API_KEY", "el-key"), ("BACKEND_ACCESS_KEY", "secret"),
   ("MAX_REF_BYTES", "500000")]

def st0 : St := ⟨[], 0, [], [], [], []⟩

/-- Healthy world: no disk faults, both provider calls succeed, the
synthesis chunks total 220 bytes. -/
def wOk : World := ⟨none, false, .ok "voice-1", .ok [150, 70]⟩

/-- World in which the second write of the upload-save loop raises. -/
def wSaveFail : World := ⟨some 1, false, .ok "voice-1", .ok [150, 70]⟩

/-- World in which the provider clone call fails. -/
def wCloneFail : World := ⟨none, false, .fail "provider boom", .ok [150, 70]⟩

/-- World in which synthesis yields only 30 bytes. -/
def wSmallSynth : World := ⟨none, false, .ok "voice-1", .ok [30]⟩

/-- 500 KB reference upload with the correct key. -/
def reqSmall : Request := ⟨some "secret", "sample.wav", [500000], "hello world"⟩

/-- 12 MiB reference upload (12 chunks of 1 MiB) with the correct key. -/
def reqBig : Request :=
  ⟨some "secret", "sample.wav", List.replicate 12 1048576, "hello world"⟩

/-- Two-chunk upload, used with `wSaveFail`. -/
def reqTwo : Request := ⟨some "secret", "sample.wav", [5, 5], "hello"⟩

/-- Request without the `X-API-KEY` header. -/
def reqNoKey : Request := ⟨none, "sample.wav", [5], "hello"⟩

/-- Request with a wrong `X-API-KEY` value. -/
def reqWrongKey : Request := ⟨some "wrong", "sample.wav", [5], "hello"⟩

/-! ### C1 -/

/-- C1: the claim says an authorized request whose saved reference file
exceeds the ceiling terminates with status 400 and detail "Reference file
too large".  The code releases the file as claimed, but its
`except Exception` clause catches the endpoint's own
`HTTPException(400, ...)` and re-raises it as a 500 with the wrapped
detail, so the response status is 500, not 400: evaluated here on an
authorized 12 MiB upload under the default 10 MiB ceiling. -/
theorem c1_oversized_run_evaluated :
    (handleRequest cfg1 env1 wOk reqBig st0).1 =
      errorResponse 500 "Failed to save reference: 400: Reference file too large" ∧
    fsLookup (handleRequest cfg1 env1 wOk reqBig st0).2.fs
      (tmpPath "ref_" ".wav" 0) = none ∧
    (handleRequest cfg1 env1 wOk reqBig st0).2.removed = [tmpPath "ref_" ".wav" 0] := by
  decide

/-! ### C2 -/

/-- C2 (amended): provided no write fault occurs while saving the upload
and the output temp-file allocation succeeds, every temporary file created
by a request is disposed of exactly once — either removed immediately
(the oversized-reference path) or scheduled for background deletion. -/
theorem c2_every_tempfile_disposed_once (cfg : Config)
    (env : List (String × String)) (w : World) (req : Request) (st : St)
    (hsave : w.saveFailAt = none) (halloc : w.outAllocFail = false)
    (hc : st.created = []) (hr : st.removed = []) (hs : st.scheduled = []) :
    ∀ p ∈ (handleRequest cfg env w req st).2.created,
      ((handleRequest cfg env w req st).2.removed.count p)
        + ((handleRequest cfg env w req st).2.scheduled.count p) = 1 := by
  intro p hp
  cases hxk : req.x_api_key with
  | none =>
    rw [show (handleRequest cfg env w req st) =
        ({ status := 422, detail := none, mediaType := none,
           contentDisposition := none, bodyFile := none }, st) by
      unfold handleRequest; rw [hxk]] at hp
    rw [hc] at hp
    cases hp
  | some key =>
    by_cases hkey : key = cfg.backend_access_key
    · subst hkey
      cases hmax : maxRefBytesOf env with
      | none =>
        rw [show (handleRequest cfg env w req st) =
            (errorResponse 500 "Internal Server Error", st) by
          unfold handleRequest synthesize_endpoint
          rw [hxk]; dsimp only; rw [if_neg (by simp), hmax]] at hp
        rw [hc] at hp
        cases hp
      | some M =>
        by_cases hle : (writeLoop w req.ref_chunks 0 0).2 ≤ M
        · have hreach : ReachesClone cfg env w req :=
            ⟨hxk, hsave, halloc, ⟨M, hmax, hle⟩⟩
          have hrun := handleRequest_reaches cfg env w req st hreach
          obtain ⟨hcre, hrem, hsch, -, -⟩ := cloneAndSynthesize_ghost w
            (tmpPath "ref_" (suffixFor req.ref_filename) st.nextTmp)
            (tmpPath "out_" ".mp3" (st.nextTmp + 1)) req.text _
          rw [hrun] at hp ⊢
          rw [hcre] at hp
          rw [hrem, hsch]
          dsimp only at hp ⊢
          rw [hc] at hp
          rw [hr, hs]
          have hne : tmpPath "ref_" (suffixFor req.ref_filename) st.nextTmp
              ≠ tmpPath "out_" ".mp3" (st.nextTmp + 1) := tmpPath_ref_ne_out _ _ _ _
          simp only [List.nil_append, List.mem_append, List.mem_singleton] at hp
          rcases hp with hp | hp <;> subst hp <;>
            simp [List.count_cons, List.count_nil, hne, Ne.symm hne]
        · have hrun := handleRequest_oversized cfg env w req st M hxk hsave hmax
            (by omega)
          rw [hrun] at hp ⊢
          dsimp only at hp ⊢
          rw [hc] at hp
          rw [hr, hs]
          simp only [List.nil_append, List.mem_singleton] at hp
          subst hp
          simp [List.count_cons, List.count_nil]
    · rw [show (handleRequest cfg env w req st) =
          (errorResponse 401 "Unauthorized", st) by
        unfold handleRequest synthesize_endpoint
        rw [hxk]; dsimp only; rw [if_pos hkey]] at hp
      rw [hc] at hp
      cases hp

/-- C2 counterexample: when the second disk write raises while saving the
upload, the reference temp file has been created but the request schedules
no deletion at all (and removes nothing), so "every temporary file ... is
scheduled for deletion exactly once, regardless of which stage failed" is
false on the code. -/
theorem c2_save_fault_leaks_tempfile :
    (handleRequest cfg1 env1 wSaveFail reqTwo st0).2.created
      = [tmpPath "ref_" ".wav" 0] ∧
    (handleRequest cfg1 env1 wSaveFail reqTwo st0).2.removed = [] ∧
    (handleRequest cfg1 env1 wSaveFail reqTwo st0).2.scheduled = [] ∧
    (handleRequest cfg1 env1 wSaveFail reqTwo st0).1.status = 500 := by
  decide

/-- C2 witness: a healthy run, evaluated at the reference temp file. -/
theorem c2_disposed_once_witness :
    (tmpPath "ref_" ".wav" 0) ∈ (handleRequest cfg1 env1 wOk reqSmall st0).2.created ∧
    ((handleRequest cfg1 env1 wOk reqSmall st0).2.removed.count (tmpPath "ref_" ".wav" 0))
      + ((handleRequest cfg1 env1 wOk reqSmall st0).2.scheduled.count
          (tmpPath "ref_" ".wav" 0)) = 1 :=
  ⟨by decide,
   c2_every_tempfile_disposed_once cfg1 env1 wOk reqSmall st0
     rfl rfl rfl rfl rfl _ (by decide)⟩

/-! ### C3 -/

/-- C3 (amended): a request whose `X-API-KEY` header does not carry the
configured secret creates no temporary file (the state is unchanged), and
the response is 401 when the header is present with a wrong value, but 422
(framework validation), not 401, when the header is missing. -/
theorem c3_no_secret_no_files (cfg : Config) (env : List (String × String))
    (w : World) (req : Request) (st : St)
    (h : ∀ k, req.x_api_key = some k → k ≠ cfg.backend_access_key) :
    (req.x_api_key = none → (handleRequest cfg env w req st).1.status = 422) ∧
    (∀ k, req.x_api_key = some k →
      (handleRequest cfg env w req st).1 = errorResponse 401 "Unauthorized") ∧
    (handleRequest cfg env w req st).2 = st := by
  cases hxk : req.x_api_key with
  | none =>
    refine ⟨fun _ => ?_, fun k hk => ?_, ?_⟩
    · unfold handleRequest; rw [hxk]
    · exact Option.noConfusion hk
    · unfold handleRequest; rw [hxk]
  | some key =>
    have hne := h key hxk
    have hrun : handleRequest cfg env w req st = (errorResponse 401 "Unauthorized", st) := by
      unfold handleRequest synthesize_endpoint
      rw [hxk]; dsimp only; rw [if_pos hne]
    refine ⟨fun he => ?_, fun k hk => ?_, ?_⟩
    · exact Option.noConfusion he
    · rw [hrun]
    · rw [hrun]

/-- C3 counterexample: a request missing the `X-API-KEY` header is
rejected with status 422 by parameter validation, not with the claimed
401. -/
theorem c3_missing_header_is_422 :
    (handleRequest cfg1 env1 wOk reqNoKey st0).1.status = 422 ∧
    ¬ (handleRequest cfg1 env1 wOk reqNoKey st0).1.status = 401 ∧
    (handleRequest cfg1 env1 wOk reqNoKey st0).2.created = [] := by
  decide

/-- C3 witness: a wrong key gets 401 and leaves the state untouched. -/
theorem c3_wrong_key_witness :
    (handleRequest cfg1 env1 wOk reqWrongKey st0).1 = errorResponse 401 "Unauthorized" ∧
    (handleRequest cfg1 env1 wOk reqWrongKey st0).2 = st0 := by
  have h := c3_no_secret_no_files cfg1 env1 wOk reqWrongKey st0
    (by intro k hk; simp only [reqWrongKey] at hk; injection hk with h1; rw [← h1]; decide)
  exact ⟨h.2.1 "wrong" rfl, h.2.2⟩

/-! ### C4 -/

/-- C4 (amended): the provider key and shared secret are read from the
environment once at startup, and the request handler depends on the
request-time environment only through the `MAX_REF_BYTES` variable — which
it re-reads on every request rather than resolving at startup. -/
theorem c4_config_dependence (cfg : Config) (env₁ env₂ : List (String × String))
    (w : World) (req : Request) (st : St)
    (hmax : getenv env₁ "MAX_REF_BYTES" = getenv env₂ "MAX_REF_BYTES")
    (hek : getenv env₁ "ELEVENLABS_API_KEY" = getenv env₂ "ELEVENLABS_API_KEY")
    (hbk : getenv env₁ "BACKEND_ACCESS_KEY" = getenv env₂ "BACKEND_ACCESS_KEY") :
    startupConfig env₁ = startupConfig env₂ ∧
    handleRequest cfg env₁ w req st = handleRequest cfg env₂ w req st := by
  constructor
  · unfold startupConfig; rw [hek, hbk]
  · have hm : maxRefBytesOf env₁ = maxRefBytesOf env₂ := by
      unfold maxRefBytesOf; rw [hmax]
    unfold handleRequest synthesize_endpoint
    rw [hm]

/-- C4 counterexample: in one process (same startup config), the same
oversized request is rejected under one request-time environment and fully
served under another, because `MAX_REF_BYTES` is read inside the endpoint
on every request — it is not resolved once at startup. -/
theorem c4_ceiling_changes_between_requests :
    startupConfig env1 = .ok cfg1 ∧
    startupConfig env2 = .ok cfg1 ∧
    (handleRequest cfg1 env1 wOk reqBig st0).1.status = 500 ∧
    (handleRequest cfg1 env2 wOk reqBig st0).1.status = 200 := by
  decide

/-- C4 witness: two environments agreeing on the three variables yield the
same startup config and the same request behavior. -/
theorem c4_config_dependence_witness :
    startupConfig env1 = startupConfig envPerm ∧
    handleRequest cfg1 env1 wOk reqSmall st0 = handleRequest cfg1 envPerm wOk reqSmall st0 :=
  c4_config_dependence cfg1 env1 envPerm wOk reqSmall st0 (by decide) (by decide) (by decide)

/-! ### C5–C10 helper facts about the output-size check -/

theorem not_outputTooSmall_of_big (fs : List (String × Nat)) (p : String)
    (n : Nat) (hn : 100 ≤ n) : ¬ outputTooSmall (fsSet fs p n) p := by
  intro hor
  rcases hor with hnone | hlt
  · rw [fsLookup_fsSet_self] at hnone; cases hnone
  · rw [getsize_fsSet_self] at hlt; omega

theorem outputTooSmall_of_small (fs : List (String × Nat)) (p : String)
    (n : Nat) (hn : n < 100) : outputTooSmall (fsSet fs p n) p :=
  Or.inr (by rw [getsize_fsSet_self]; exact hn)

/-! ### C5 -/

/-- C5: when the exhausted chunk sequence leaves the output file below the
plausible-size threshold, `synthesize_text_to_file`'s check fires, the
pipeline reports the synthesis failure with status 500, and no 200 is
returned. -/
theorem c5_small_output_is_synthesis_failure (cfg : Config)
    (env : List (String × String)) (w : World) (req : Request) (st : St)
    (v : String) (cs : List Nat)
    (h : ReachesClone cfg env w req)
    (hclone : w.cloneOutcome = .ok v)
    (hsynth : w.synthOutcome = .ok cs)
    (hsmall : (cs.filter (fun c => c != 0)).sum < 100) :
    (handleRequest cfg env w req st).1 =
      errorResponse 500 "TTS error: Synthesized file is empty or too small" ∧
    (handleRequest cfg env w req st).1.status ≠ 200 := by
  have h1 : (handleRequest cfg env w req st).1 =
      errorResponse 500 "TTS error: Synthesized file is empty or too small" := by
    rw [handleRequest_reaches cfg env w req st h]
    unfold cloneAndSynthesize create_voice_from_reference
    dsimp only
    rw [fsLookup_fsSet_ne _ _ _ _ (tmpPath_ref_ne_out _ _ _ _), fsLookup_fsSet_self]
    dsimp only
    rw [hclone]
    dsimp only
    unfold synthesize_text_to_file
    rw [hsynth]
    dsimp only
    rw [if_pos (outputTooSmall_of_small _ _ _ hsmall)]
    rfl
  exact ⟨h1, by rw [h1]; decide⟩

/-- C5 witness: a 30-byte synthesis output yields the 500 failure. -/
theorem c5_small_output_witness :
    (handleRequest cfg1 env1 wSmallSynth reqSmall st0).1 =
      errorResponse 500 "TTS error: Synthesized file is empty or too small" :=
  (c5_small_output_is_synthesis_failure cfg1 env1 wSmallSynth reqSmall st0
    "voice-1" [30] ⟨rfl, rfl, rfl, ⟨10485760, rfl, by decide⟩⟩ rfl rfl (by decide)).1

/-! ### C6 -/

/-- C6: any provider failure in the clone or synthesis call, after
authorization and the size check, terminates the pipeline with a 500 whose
detail is "TTS error: " followed by the provider's error text verbatim. -/
theorem c6_provider_error_verbatim (cfg : Config)
    (env : List (String × String)) (w : World) (req : Request) (st : St)
    (m : String)
    (h : ReachesClone cfg env w req)
    (hfail : w.cloneOutcome = .fail m ∨
      ∃ v, w.cloneOutcome = .ok v ∧ w.synthOutcome = .fail m) :
    (handleRequest cfg env w req st).1 = errorResponse 500 ("TTS error: " ++ m) := by
  rw [handleRequest_reaches cfg env w req st h]
  unfold cloneAndSynthesize create_voice_from_reference
  dsimp only
  rw [fsLookup_fsSet_ne _ _ _ _ (tmpPath_ref_ne_out _ _ _ _), fsLookup_fsSet_self]
  dsimp only
  rcases hfail with hm | ⟨v, hv, hm⟩
  · rw [hm]
  · rw [hv]
    dsimp only
    unfold synthesize_text_to_file
    rw [hm]

/-- C6 witness: a failing clone call surfaces its text after "TTS error: ". -/
theorem c6_provider_error_witness :
    (handleRequest cfg1 env1 wCloneFail reqSmall st0).1 =
      errorResponse 500 ("TTS error: " ++ "provider boom") :=
  c6_provider_error_verbatim cfg1 env1 wCloneFail reqSmall st0 "provider boom"
    ⟨rfl, rfl, rfl, ⟨10485760, rfl, by decide⟩⟩ (Or.inl rfl)

/-! ### C7 -/

/-- C7: two requests served by the same process that both reach the clone
stage (the second starting from the state the first left behind) record
distinct clone names, because each name embeds its own reference temp
file's unique token. -/
theorem c7_clone_names_distinct (cfg : Config)
    (env₁ env₂ : List (String × String)) (w₁ w₂ : World)
    (req₁ req₂ : Request) (st : St) (c₁ c₂ : String)
    (h₁ : ReachesClone cfg env₁ w₁ req₁)
    (h₂ : ReachesClone cfg env₂ w₂ req₂)
    (hc₁ : (handleRequest cfg env₁ w₁ req₁ st).2.cloneCalls
        = st.cloneCalls ++ [c₁])
    (hc₂ : (handleRequest cfg env₂ w₂ req₂ (handleRequest cfg env₁ w₁ req₁ st).2).2.cloneCalls
        = (handleRequest cfg env₁ w₁ req₁ st).2.cloneCalls ++ [c₂]) :
    c₁ ≠ c₂ := by
  obtain ⟨hcalls₁, hnext₁⟩ := cloneCalls_of_reaches cfg env₁ w₁ req₁ st h₁
  obtain ⟨hcalls₂, hnext₂⟩ :=
    cloneCalls_of_reaches cfg env₂ w₂ req₂ (handleRequest cfg env₁ w₁ req₁ st).2 h₂
  rw [hcalls₁] at hc₁
  rw [hcalls₂] at hc₂
  have e₁ : cloneNameFor req₁ st = c₁ := by
    have hl := List.append_cancel_left hc₁
    exact (List.cons.injEq _ _ _ _).mp hl |>.1
  have e₂ : cloneNameFor req₂ (handleRequest cfg env₁ w₁ req₁ st).2 = c₂ := by
    have hl := List.append_cancel_left hc₂
    exact (List.cons.injEq _ _ _ _).mp hl |>.1
  rw [← e₁, ← e₂]
  exact cloneNameFor_ne req₁ req₂ st (handleRequest cfg env₁ w₁ req₁ st).2
    (by rw [hnext₁]; omega)

/-- C7 witness: two identical healthy requests in sequence record the
distinct clone names produced by tokens 0 and 2. -/
theorem c7_clone_names_witness :
    ("ref_clone_ref_u.wav" : String) ≠ "ref_clone_ref_uuu.wav" :=
  c7_clone_names_distinct cfg1 env1 env1 wOk wOk reqSmall reqSmall st0
    "ref_clone_ref_u.wav" "ref_clone_ref_uuu.wav"
    ⟨rfl, rfl, rfl, ⟨10485760, rfl, by decide⟩⟩
    ⟨rfl, rfl, rfl, ⟨10485760, rfl, by decide⟩⟩
    (by decide) (by decide)

/-! ### C8 -/

/-- C8: a fully successful run returns 200 with the body streamed from the
synthesized output temp file, `Content-Type: audio/mpeg`, and
`Content-Disposition: attachment; filename="tts.mp3"`; the streamed file
holds exactly the synthesized bytes. -/
theorem c8_success_response (cfg : Config) (env : List (String × String))
    (w : World) (req : Request) (st : St) (v : String) (cs : List Nat)
    (h : ReachesClone cfg env w req)
    (hclone : w.cloneOutcome = .ok v)
    (hsynth : w.synthOutcome = .ok cs)
    (hbig : 100 ≤ (cs.filter (fun c => c != 0)).sum) :
    (handleRequest cfg env w req st).1 =
      { status := 200
        detail := none
        mediaType := some "audio/mpeg"
        contentDisposition := some "attachment; filename=\"tts.mp3\""
        bodyFile := some (tmpPath "out_" ".mp3" (st.nextTmp + 1)) } ∧
    fsLookup (handleRequest cfg env w req st).2.fs
        (tmpPath "out_" ".mp3" (st.nextTmp + 1))
      = some ((cs.filter (fun c => c != 0)).sum) := by
  rw [handleRequest_reaches cfg env w req st h]
  unfold cloneAndSynthesize create_voice_from_reference
  dsimp only
  rw [fsLookup_fsSet_ne _ _ _ _ (tmpPath_ref_ne_out _ _ _ _), fsLookup_fsSet_self]
  dsimp only
  rw [hclone]
  dsimp only
  unfold synthesize_text_to_file
  rw [hsynth]
  dsimp only
  rw [if_neg (not_outputTooSmall_of_big _ _ _ hbig)]
  refine ⟨rfl, ?_⟩
  dsimp only
  rw [fsLookup_fsSet_self]

/-- C8 witness: the healthy run evaluated concretely. -/
theorem c8_success_witness :
    (handleRequest cfg1 env1 wOk reqSmall st0).1 =
      { status := 200
        detail := none
        mediaType := some "audio/mpeg"
        contentDisposition := some "attachment; filename=\"tts.mp3\""
        bodyFile := some (tmpPath "out_" ".mp3" 1) } ∧
    fsLookup (handleRequest cfg1 env1 wOk reqSmall st0).2.fs (tmpPath "out_" ".mp3" 1)
      = some (([150, 70].filter (fun c => c != 0)).sum) :=
  c8_success_response cfg1 env1 wOk reqSmall st0 "voice-1" [150, 70]
    ⟨rfl, rfl, rfl, ⟨10485760, rfl, by decide⟩⟩ rfl rfl (by decide)

/-! ### C9 -/

/-- C9: the ceiling comparison on line 134 is strict — a saved reference
of exactly the configured ceiling proceeds to the clone stage, while a
strictly larger one takes the rejection path (whose observable outcome is
the wrapped 500 of C1, with the reference file removed). -/
theorem c9_size_check_strict (cfg : Config) (env : List (String × String))
    (w : World) (req : Request) (st : St) (M : Nat)
    (hauth : req.x_api_key = some cfg.backend_access_key)
    (hsave : w.saveFailAt = none)
    (halloc : w.outAllocFail = false)
    (hmax : maxRefBytesOf env = some M) :
    ((writeLoop w req.ref_chunks 0 0).2 ≤ M →
      (handleRequest cfg env w req st).2.cloneCalls
        = st.cloneCalls ++ [cloneNameFor req st]) ∧
    (M < (writeLoop w req.ref_chunks 0 0).2 →
      (handleRequest cfg env w req st).1 =
        errorResponse 500 "Failed to save reference: 400: Reference file too large" ∧
      fsLookup (handleRequest cfg env w req st).2.fs
        (tmpPath "ref_" (suffixFor req.ref_filename) st.nextTmp) = none) := by
  constructor
  · intro he
    exact (cloneCalls_of_reaches cfg env w req st
      ⟨hauth, hsave, halloc, ⟨M, hmax, he⟩⟩).1
  · intro hgt
    rw [handleRequest_oversized cfg env w req st M hauth hsave hmax hgt]
    refine ⟨?_, ?_⟩
    · dsimp only
      rfl
    · dsimp only
      rw [fsLookup_fsErase_self]

/-- C9 witness: a 500000-byte reference under a 500000-byte ceiling is
accepted and reaches the clone stage. -/
theorem c9_exact_ceiling_witness :
    (handleRequest cfg1 envM wOk reqSmall st0).2.cloneCalls
      = st0.cloneCalls ++ [cloneNameFor reqSmall st0] :=
  (c9_size_check_strict cfg1 envM wOk reqSmall st0 500000
    rfl rfl rfl (by decide)).1 (by decide)

/-! ### C10 -/

/-- C10: the plausible-size threshold in `synthesize_text_to_file` is
exactly 100 bytes — an output totalling 100 bytes passes, any smaller
total raises the synthesis-empty error, and the line-93 check also fires
for a missing file. -/
theorem c10_threshold_is_100 (w : World) (v t p : String) (st : St)
    (cs : List Nat) (hsynth : w.synthOutcome = .ok cs) :
    ((synthesize_text_to_file w v t p st).1
        = .fail "Synthesized file is empty or too small"
      ↔ (cs.filter (fun c => c != 0)).sum < 100) ∧
    ((synthesize_text_to_file w v t p st).1 = .ok ()
      ↔ 100 ≤ (cs.filter (fun c => c != 0)).sum) ∧
    (∀ fs q, fsLookup fs q = none → outputTooSmall fs q) := by
  unfold synthesize_text_to_file
  rw [hsynth]
  dsimp only
  by_cases hsm : (cs.filter (fun c => c != 0)).sum < 100
  · rw [if_pos (outputTooSmall_of_small _ _ _ hsm)]
    exact ⟨⟨fun _ => hsm, fun _ => rfl⟩,
      ⟨fun hq => Outcome.noConfusion hq, fun hq => by omega⟩,
      fun fs q hq => Or.inl hq⟩
  · rw [if_neg (not_outputTooSmall_of_big _ _ _ (by omega))]
    exact ⟨⟨fun hq => Outcome.noConfusion hq, fun hq => by omega⟩,
      ⟨fun _ => by omega, fun _ => rfl⟩,
      fun fs q hq => Or.inl hq⟩

/-- C10 witness: 100 bytes pass, 99 bytes raise. -/
theorem c10_threshold_witness :
    (synthesize_text_to_file ⟨none, false, .ok "voice-1", .ok [60, 40]⟩
        "v" "t" "/tmp/out_u.mp3" st0).1 = .ok () ∧
    (synthesize_text_to_file ⟨none, false, .ok "voice-1", .ok [60, 39]⟩
        "v" "t" "/tmp/out_u.mp3" st0).1
      = .fail "Synthesized file is empty or too small" :=
  ⟨((c10_threshold_is_100 ⟨none, false, .ok "voice-1", .ok [60, 40]⟩
      "v" "t" "/tmp/out_u.mp3" st0 [60, 40] rfl).2.1).mpr (by decide),
   ((c10_threshold_is_100 ⟨none, false, .ok "voice-1", .ok [60, 39]⟩
      "v" "t" "/tmp/out_u.mp3" st0 [60, 39] rfl).1).mpr (by decide)⟩

end VoiceProxy
